import Mathlib

/-!
Shallow embedding of the SiteForge chat backend (FastAPI + SQLAlchemy).

Embedded source files:
* `backend/app/main.py` — the `/api/messages` read endpoint (`get_messages`)
  and the `/ws` WebSocket session loop (`websocket_endpoint`);
* `backend/app/models/message.py` — the `Message` model and `Message.to_dict`;
* `backend/alembic/versions/e8a68b862b81_create_messages_table.py` — the
  `messages` table: `id` integer autoincrement primary key, `username`
  varchar(100) not null, `content` text not null, `created_at` timestamp.

The database is modelled as a `Store` with an autoincrement counter; a commit
that the storage backend refuses (backend unavailable, a parameter that does
not fit its column type, a varchar over its declared length) is an exception
at `await db.commit()`, which the session's `except Exception` handler turns
into a disconnect.
-/

namespace SiteForge

/-- JSON values as produced by `websocket.receive_json` (Python `json.loads`);
numbers are modelled as integers. -/
inductive Json where
  | null : Json
  | bool : Bool → Json
  | num : Int → Json
  | str : String → Json
  | arr : List Json → Json
  | obj : List (String × Json) → Json
deriving Inhabited

/-- Python truthiness on a parsed JSON value: `None`, `False`, `0`, `""`,
`[]` and `\x7b\x7d` are falsy, everything else truthy. -/
def Json.falsy : Json → Bool
  | .null => true
  | .bool b => !b
  | .num n => n == 0
  | .str s => s == ""
  | .arr xs => xs.isEmpty
  | .obj fs => fs.isEmpty

/-- First-match lookup in a parsed JSON object (a Python dict holds each key
at most once). -/
def lookupField : List (String × Json) → String → Option Json
  | [], _ => none
  | (k, v) :: rest, key => if k = key then some v else lookupField rest key

/-- Python `data.get(key, default)`: the stored value when the key is present
(even when that value is falsy), otherwise the default. -/
def getField (data : List (String × Json)) (key : String) (default : Json) : Json :=
  (lookupField data key).getD default

/-- A UTC wall-clock instant, the fields of a Python `datetime`. -/
structure DateTime where
  year : Nat
  month : Nat
  day : Nat
  hour : Nat
  minute : Nat
  second : Nat
  microsecond : Nat
deriving Repr, DecidableEq, Inhabited

/-- Left-pad the decimal form of `n` with zeros to `width` digits. -/
def padNum (width n : Nat) : String :=
  let s := toString n
  String.mk (List.replicate (width - s.length) '0') ++ s

/-- Python `datetime.isoformat()`: `YYYY-MM-DDTHH:MM:SS` with a
`.ffffff` microsecond suffix exactly when the microsecond field is nonzero. -/
def DateTime.isoformat (d : DateTime) : String :=
  padNum 4 d.year ++ "-" ++ padNum 2 d.month ++ "-" ++ padNum 2 d.day ++ "T" ++
    padNum 2 d.hour ++ ":" ++ padNum 2 d.minute ++ ":" ++ padNum 2 d.second ++
    (if d.microsecond = 0 then "" else "." ++ padNum 6 d.microsecond)

/-- Mixed-radix chronological rank of an instant; for in-range field values it
orders instants exactly as SQL compares `timestamp` columns. -/
def DateTime.rank (d : DateTime) : Nat :=
  (((((d.year * 13 + d.month) * 32 + d.day) * 24 + d.hour) * 60 + d.minute) * 60 + d.second)
      * 1000000 + d.microsecond

/-- Chronological comparison of two instants, the order `ORDER BY created_at ASC`
sorts by. -/
def DateTime.leb (a b : DateTime) : Bool := a.rank ≤ b.rank

/-- One row of the `messages` table (`backend/app/models/message.py`):
`id` integer autoincrement primary key, `username` varchar(100) not null,
`content` text not null, `created_at` timestamp not null, defaulted to the
server clock at persistence time. -/
structure Message where
  id : Nat
  username : String
  content : String
  created_at : DateTime
deriving Repr, DecidableEq

/-- `Message.to_dict`: the JSON serialization used both for the broadcast
payload and for the history endpoint. -/
def Message.to_dict (m : Message) : List (String × Json) :=
  [("id", Json.num m.id),
   ("username", Json.str m.username),
   ("content", Json.str m.content),
   ("created_at", Json.str m.created_at.isoformat)]

/-- The declared length bound of the `username` column, `String(100)` in the
model and `sa.String(length=100)` in the migration. -/
def usernameMaxLength : Nat := 100

/-- The database state: the autoincrement counter of the `id` column and the
rows in persistence order. -/
structure Store where
  nextId : Nat
  messages : List Message
deriving Repr, DecidableEq

/-- The freshly migrated database: no rows, the autoincrement sequence at 1. -/
def initialStore : Store :=
  { nextId := 1, messages := [] }

/-- A successful `INSERT` into `messages`: the row receives the counter as its
id and the server clock as its timestamp, never a client-supplied value. -/
def Store.append (st : Store) (username content : String) (now : DateTime) :
    Store × Message :=
  let m : Message :=
    { id := st.nextId, username := username, content := content, created_at := now }
  ({ nextId := st.nextId + 1, messages := st.messages ++ [m] }, m)

/-- Outcome of the validation lines of `websocket_endpoint`:
`username = data.get("username", "Anonymous")`,
`content = data.get("content", "")`, `if not content: continue`. -/
inductive Validated where
  | drop : Validated
  | accept : Json → Json → Validated
deriving Inhabited

/-- The validation stage of one pass of the `/ws` loop body: extract the two
fields with their defaults and discard the payload when its content is falsy. -/
def validate (data : List (String × Json)) : Validated :=
  let username := getField data "username" (Json.str "Anonymous")
  let content := getField data "content" (Json.str "")
  if content.falsy then .drop else .accept username content

/-- What one pass of the `/ws` loop body did with the payload. -/
inductive LoopResult where
  | skipped : LoopResult
  | broadcasted : List (String × Json) → LoopResult
  | raised : LoopResult
deriving Inhabited

/-- Outcome of `await db.commit()` for the two bound parameters: the commit
succeeds only when both parameters are strings (the database driver rejects a
non-string bind for a varchar/text column), the username fits the declared
varchar(100), and the backend is reachable (`commitOk`); otherwise the commit
raises and the transaction leaves no row. -/
def commitResult (u c : Json) (commitOk : Bool) : Option (String × String) :=
  match u, c with
  | .str us, .str cs =>
    if us.length ≤ usernameMaxLength ∧ commitOk = true then some (us, cs) else none
  | _, _ => none

/-- One pass of the `while True` body of `websocket_endpoint` on a received
JSON object `data`. A falsy content hits `continue` (`skipped`). Otherwise a
`Message` is constructed and committed; on success the row's `to_dict` is
handed to `manager.broadcast` (`broadcasted`), on failure the exception
escapes the loop body (`raised`). -/
def loopStep (st : Store) (data : List (String × Json)) (commitOk : Bool)
    (now : DateTime) : Store × LoopResult :=
  match validate data with
  | .drop => (st, .skipped)
  | .accept u c =>
    match commitResult u c commitOk with
    | some (us, cs) =>
      let out := st.append us cs now
      (out.1, .broadcasted out.2.to_dict)
    | none => (st, .raised)

/-- One receive event of a client session. -/
inductive Inbound where
  | json : List (String × Json) → Inbound
  | malformed : Inbound
  | disconnect : Inbound
deriving Inhabited

/-- Whether the session loop reaches its next `receive_json` after this event.
A clean close raises `WebSocketDisconnect`; a non-parseable payload raises in
`receive_json`; both, like any exception escaping the loop body, land in an
`except` handler of `websocket_endpoint` that disconnects the client and ends
the session. -/
def sessionContinues (st : Store) (inb : Inbound) (commitOk : Bool)
    (now : DateTime) : Bool :=
  match inb with
  | .disconnect => false
  | .malformed => false
  | .json data =>
    match (loopStep st data commitOk now).2 with
    | .raised => false
    | _ => true

/-- A serialized trace of loop passes against the shared database, each pass
from whichever session received its payload. -/
def runSteps (st : Store) : List (List (String × Json) × Bool × DateTime) → Store
  | [] => st
  | (data, ok, now) :: rest => runSteps (loopStep st data ok now).1 rest

/-- The `/api/messages` endpoint: a `SELECT` ordered by `created_at` ascending,
each row serialized through `Message.to_dict`; the session performs no write,
so the store comes back unchanged. -/
def get_messages (st : Store) : Store × List (List (String × Json)) :=
  (st, (st.messages.mergeSort (fun a b => a.created_at.leb b.created_at)).map Message.to_dict)

/-- Modelled from the spec: `backend/app/websocket_manager.py` — the `manager`
singleton holding the connection registry and the fan-out half of the
broadcast — is not among the provided sources, only its callers are. Per the
spec, delivery of one payload is attempted for each handle of the registry
snapshot in turn; a delivery failure removes exactly that failing handle from
the registry (an implicit disconnect) and delivery continues with the
remaining handles. Handles are opaque; `delivers` says which handles accept
the delivery. Returns the registry after the pass and the handles that were
offered the payload, in order. -/
def deliverAll (snapshot : List Nat) (delivers : Nat → Bool) (registry : List Nat) :
    List Nat × List Nat :=
  match snapshot with
  | [] => (registry, [])
  | h :: rest =>
    let registry2 := if delivers h then registry else registry.filter (fun x => x ≠ h)
    let out := deliverAll rest delivers registry2
    (out.1, h :: out.2)

/-- Well-formedness of the database state: every stored id is below the
autoincrement counter and stored ids strictly increase in row order. -/
def Store.WF (st : Store) : Prop :=
  (∀ m ∈ st.messages, m.id < st.nextId) ∧
  List.Pairwise (fun a b : Message => a.id < b.id) st.messages

/-- A fixed concrete instant used by the concrete evaluations below. -/
def t0 : DateTime :=
  { year := 2026, month := 2, day := 15, hour := 15, minute := 32, second := 7,
    microsecond := 0 }

/-- The serialized form of the first message of a fresh store when the payload
carried content `"hi"` and no username. -/
def dm0 : List (String × Json) :=
  Message.to_dict { id := 1, username := "Anonymous", content := "hi", created_at := t0 }

/-- A 101-character username, one over the declared column bound. -/
def longName : String := String.mk (List.replicate 101 'a')

/-- Inversion of a successful commit: the bound parameters were strings, the
username fit the column, and the backend was reachable. -/
theorem commitResult_some (u c : Json) (ok : Bool) (us cs : String)
    (h : commitResult u c ok = some (us, cs)) :
    u = Json.str us ∧ c = Json.str cs ∧ us.length ≤ usernameMaxLength ∧ ok = true := by
  cases u <;> cases c <;> simp only [commitResult] at h
  all_goals try exact Option.noConfusion h
  rename_i us2 cs2
  split at h
  · rename_i hcond
    rw [Option.some.injEq, Prod.mk.injEq] at h
    obtain ⟨h1, h2⟩ := h
    subst h1
    subst h2
    exact ⟨rfl, rfl, hcond.1, hcond.2⟩
  · exact Option.noConfusion h

/-- Inversion of a broadcast outcome of one loop pass: the payload's fields
were strings after the defaults, the commit succeeded, and the pass appended
exactly one row whose serialization is the broadcast payload. -/
theorem loopStep_broadcasted_inv (st : Store) (data : List (String × Json))
    (ok : Bool) (now : DateTime) (p : List (String × Json))
    (hb : (loopStep st data ok now).2 = LoopResult.broadcasted p) :
    ∃ us cs : String,
      getField data "username" (Json.str "Anonymous") = Json.str us ∧
      getField data "content" (Json.str "") = Json.str cs ∧
      us.length ≤ usernameMaxLength ∧ ok = true ∧
      loopStep st data ok now =
        ({ nextId := st.nextId + 1,
           messages := st.messages ++
             [{ id := st.nextId, username := us, content := cs, created_at := now }] },
         LoopResult.broadcasted
           (Message.to_dict
             { id := st.nextId, username := us, content := cs, created_at := now })) := by
  by_cases hf : (getField data "content" (Json.str "")).falsy = true
  · simp [loopStep, validate, hf] at hb
  · rcases hcr : commitResult (getField data "username" (Json.str "Anonymous"))
        (getField data "content" (Json.str "")) ok with _ | ⟨us, cs⟩
    · simp [loopStep, validate, hf, hcr] at hb
    · obtain ⟨hu, hc, hlen, hok⟩ :=
        commitResult_some (getField data "username" (Json.str "Anonymous"))
          (getField data "content" (Json.str "")) ok us cs hcr
      refine ⟨us, cs, hu, hc, hlen, hok, ?_⟩
      simp [loopStep, validate, hf, hcr, Store.append]

/-- One loop pass leaves the store skipped-unchanged exactly when the content
field is falsy. -/
theorem loopStep_skipped_iff (st : Store) (data : List (String × Json))
    (ok : Bool) (now : DateTime) :
    (loopStep st data ok now).2 = LoopResult.skipped ↔
      (getField data "content" (Json.str "")).falsy = true := by
  by_cases hf : (getField data "content" (Json.str "")).falsy = true
  · simp [loopStep, validate, hf]
  · rcases hcr : commitResult (getField data "username" (Json.str "Anonymous"))
        (getField data "content" (Json.str "")) ok with _ | ⟨us, cs⟩ <;>
      simp [loopStep, validate, hf, hcr]

/-- The fresh database is well-formed. -/
theorem WF_initialStore : initialStore.WF := by
  constructor <;> simp [initialStore]

/-- One loop pass preserves well-formedness of the database state. -/
theorem WF_loopStep (st : Store) (data : List (String × Json)) (ok : Bool)
    (now : DateTime) (h : st.WF) : (loopStep st data ok now).1.WF := by
  by_cases hf : (getField data "content" (Json.str "")).falsy = true
  · simpa [loopStep, validate, hf] using h
  · rcases hcr : commitResult (getField data "username" (Json.str "Anonymous"))
        (getField data "content" (Json.str "")) ok with _ | ⟨us, cs⟩
    · simpa [loopStep, validate, hf, hcr] using h
    · have hstep : (loopStep st data ok now).1 =
          { nextId := st.nextId + 1,
            messages := st.messages ++
              [{ id := st.nextId, username := us, content := cs, created_at := now }] } := by
        simp [loopStep, validate, hf, hcr, Store.append]
      rw [hstep]
      obtain ⟨hlt, hpw⟩ := h
      constructor
      · intro m hm
        rcases List.mem_append.mp hm with hm | hm
        · exact Nat.lt_trans (hlt m hm) (Nat.lt_succ_self _)
        · simp only [List.mem_singleton] at hm
          subst hm
          exact Nat.lt_succ_self _
      · rw [List.pairwise_append]
        refine ⟨hpw, by simp, ?_⟩
        intro a ha b hb
        simp only [List.mem_singleton] at hb
        subst hb
        exact hlt a ha

/-- Any serialized trace of loop passes preserves well-formedness. -/
theorem WF_runSteps (inputs : List (List (String × Json) × Bool × DateTime))
    (st : Store) (h : st.WF) : (runSteps st inputs).WF := by
  induction inputs generalizing st with
  | nil => exact h
  | cons i rest ih =>
    obtain ⟨data, ok, now⟩ := i
    exact ih (loopStep st data ok now).1 (WF_loopStep st data ok now h)

/-- Unfolding of one fan-out step over a nonempty snapshot. -/
theorem deliverAll_cons (g : Nat) (rest : List Nat) (delivers : Nat → Bool)
    (registry : List Nat) :
    deliverAll (g :: rest) delivers registry =
      ((deliverAll rest delivers
          (if delivers g then registry else registry.filter (fun x => x ≠ g))).1,
       g :: (deliverAll rest delivers
          (if delivers g then registry else registry.filter (fun x => x ≠ g))).2) := rfl

/-- Claim C1 (amended): a payload whose content field — after the
`data.get("content", "")` default for a missing key — is the empty string is
neither persisted (the store, id counter included, is unchanged) nor
broadcast, and the session loop continues with the next payload. -/
theorem C1_empty_content_dropped (st : Store) (data : List (String × Json))
    (ok : Bool) (now : DateTime)
    (h : getField data "content" (Json.str "") = Json.str "") :
    loopStep st data ok now = (st, LoopResult.skipped) ∧
    sessionContinues st (Inbound.json data) ok now = true := by
  have hf : (getField data "content" (Json.str "")).falsy = true := by
    rw [h]
    rfl
  constructor
  · simp [loopStep, validate, hf]
  · simp [sessionContinues, loopStep, validate, hf]

/-- Witness for claim C1 at the concrete payload with content `""`. -/
theorem C1_empty_content_dropped_witness :
    getField [("content", Json.str "")] "content" (Json.str "") = Json.str "" ∧
    (loopStep initialStore [("content", Json.str "")] true t0 =
        (initialStore, LoopResult.skipped) ∧
      sessionContinues initialStore (Inbound.json [("content", Json.str "")]) true t0 = true) :=
  ⟨rfl, C1_empty_content_dropped initialStore [("content", Json.str "")] true t0 rfl⟩

/-- Claim C1 counterexample: the whitespace-only content `" "` is truthy in
Python, so `if not content` does not fire — the payload is persisted (one row
is stored and the id counter moves from 1 to 2) and its serialization is
handed to broadcast, against the claim that whitespace-only content is
dropped. -/
theorem C1_counterexample :
    (loopStep initialStore [("content", Json.str " ")] true t0).1.messages.map
        Message.content = [" "] ∧
    (loopStep initialStore [("content", Json.str " ")] true t0).1.nextId = 2 ∧
    (loopStep initialStore [("content", Json.str " ")] true t0).2 =
      LoopResult.broadcasted
        (Message.to_dict
          { id := 1, username := "Anonymous", content := " ", created_at := t0 }) :=
  ⟨rfl, rfl, rfl⟩

/-- Claim C2 (amended): after a parseable payload the session loop reaches its
next receive exactly when the loop body raised no exception — a validation
drop or a successful persist-and-broadcast continues the loop — while a
malformed (non-parseable) payload raises in `receive_json` and ends the
session. -/
theorem C2_continue_iff_no_exception (st : Store) (data : List (String × Json))
    (ok : Bool) (now : DateTime) :
    sessionContinues st Inbound.malformed ok now = false ∧
    (sessionContinues st (Inbound.json data) ok now = true ↔
      (loopStep st data ok now).2 ≠ LoopResult.raised) := by
  refine ⟨rfl, ?_⟩
  simp only [sessionContinues]
  rcases h : (loopStep st data ok now).2 <;> simp

/-- Witness for claim C2 at a concrete parseable payload. -/
theorem C2_continue_iff_no_exception_witness :
    sessionContinues initialStore Inbound.malformed true t0 = false ∧
    (sessionContinues initialStore (Inbound.json [("content", Json.str "hi")]) true t0 = true ↔
      (loopStep initialStore [("content", Json.str "hi")] true t0).2 ≠ LoopResult.raised) :=
  C2_continue_iff_no_exception initialStore [("content", Json.str "hi")] true t0

/-- Claim C2 counterexample: a malformed payload ends the session instead of
being dropped as a single message, and a persistence failure on a valid
payload likewise ends the session instead of letting the loop continue —
the `except Exception` handler of `websocket_endpoint` disconnects in both
cases. -/
theorem C2_counterexample :
    sessionContinues initialStore Inbound.malformed true t0 = false ∧
    sessionContinues initialStore (Inbound.json [("content", Json.str "hi")]) false t0 = false :=
  ⟨rfl, rfl⟩

/-- Claim C3 (amended): a payload carrying no username key is persisted and
broadcast with username "Anonymous"; the `data.get("username", "Anonymous")`
default applies only to a missing key, so a username key present with the
empty string is kept as the empty string. -/
theorem C3_missing_username_anonymous (st : Store) (data : List (String × Json))
    (ok : Bool) (now : DateTime) (p : List (String × Json))
    (habs : lookupField data "username" = none)
    (hb : (loopStep st data ok now).2 = LoopResult.broadcasted p) :
    (∃ m : Message,
      (loopStep st data ok now).1.messages = st.messages ++ [m] ∧
      m.username = "Anonymous" ∧ p = m.to_dict) ∧
    lookupField p "username" = some (Json.str "Anonymous") := by
  have hanon : getField data "username" (Json.str "Anonymous") = Json.str "Anonymous" := by
    simp [getField, habs]
  obtain ⟨us, cs, hu, hc, hlen, hok, heq⟩ := loopStep_broadcasted_inv st data ok now p hb
  have hus : us = "Anonymous" := by
    rw [hanon] at hu
    injection hu with h2
    exact h2.symm
  subst hus
  have hmsg : (loopStep st data ok now).1.messages =
      st.messages ++
        [({ id := st.nextId, username := "Anonymous", content := cs,
            created_at := now } : Message)] := by
    rw [heq]
  have hp : p = Message.to_dict
      { id := st.nextId, username := "Anonymous", content := cs, created_at := now } := by
    have h2 : LoopResult.broadcasted (Message.to_dict
        { id := st.nextId, username := "Anonymous", content := cs, created_at := now }) =
        LoopResult.broadcasted p := by
      rw [← hb, heq]
    injection h2 with h3
    exact h3.symm
  refine ⟨⟨({ id := st.nextId, username := "Anonymous", content := cs,
              created_at := now } : Message), hmsg, rfl, hp⟩, ?_⟩
  rw [hp]
  rfl

/-- Witness for claim C3 at the concrete payload with no username key. -/
theorem C3_missing_username_anonymous_witness :
    lookupField [("content", Json.str "hi")] "username" = none ∧
    (loopStep initialStore [("content", Json.str "hi")] true t0).2 =
      LoopResult.broadcasted dm0 ∧
    ((∃ m : Message,
      (loopStep initialStore [("content", Json.str "hi")] true t0).1.messages =
        initialStore.messages ++ [m] ∧
      m.username = "Anonymous" ∧ dm0 = m.to_dict) ∧
    lookupField dm0 "username" = some (Json.str "Anonymous")) :=
  ⟨rfl, rfl,
    C3_missing_username_anonymous initialStore [("content", Json.str "hi")] true t0 dm0 rfl rfl⟩

/-- Claim C3 counterexample: a payload carrying `"username": ""` is persisted
with the empty-string username, not with "Anonymous" — the default applies
only when the key is absent. -/
theorem C3_counterexample :
    (loopStep initialStore [("username", Json.str ""), ("content", Json.str "hi")]
        true t0).1.messages.map Message.username = [""] ∧
    ("" : String) ≠ "Anonymous" :=
  ⟨rfl, by decide⟩

/-- Claim C4: a payload reaches `manager.broadcast` only when `db.commit`
succeeded, and the broadcast payload is the serialization of the row just
appended, carrying the server-assigned id and timestamp; when the persistence
call fails, the loop body raises and nothing is broadcast. -/
theorem C4_broadcast_after_persist (st : Store) (data : List (String × Json))
    (ok : Bool) (now : DateTime) :
    (∀ p, (loopStep st data false now).2 ≠ LoopResult.broadcasted p) ∧
    ∀ p, (loopStep st data ok now).2 = LoopResult.broadcasted p →
      ok = true ∧
      ∃ m : Message,
        (loopStep st data ok now).1.messages = st.messages ++ [m] ∧
        m.id = st.nextId ∧ m.created_at = now ∧ p = m.to_dict := by
  constructor
  · intro p hp
    obtain ⟨us, cs, _, _, _, hok, _⟩ := loopStep_broadcasted_inv st data false now p hp
    exact Bool.false_ne_true hok
  · intro p hp
    obtain ⟨us, cs, hu, hc, hlen, hok, heq⟩ := loopStep_broadcasted_inv st data ok now p hp
    refine ⟨hok, ({ id := st.nextId, username := us, content := cs,
                    created_at := now } : Message), by rw [heq], rfl, rfl, ?_⟩
    have h2 : LoopResult.broadcasted (Message.to_dict
        { id := st.nextId, username := us, content := cs, created_at := now }) =
        LoopResult.broadcasted p := by
      rw [← hp, heq]
    injection h2 with h3
    exact h3.symm

/-- Witness for claim C4 at a concrete payload whose commit succeeds. -/
theorem C4_broadcast_after_persist_witness :
    (loopStep initialStore [("content", Json.str "hi")] true t0).2 =
      LoopResult.broadcasted dm0 ∧
    (true = true ∧
      ∃ m : Message,
        (loopStep initialStore [("content", Json.str "hi")] true t0).1.messages =
          initialStore.messages ++ [m] ∧
        m.id = initialStore.nextId ∧ m.created_at = t0 ∧ dm0 = m.to_dict) :=
  ⟨rfl,
    (C4_broadcast_after_persist initialStore [("content", Json.str "hi")] true t0).2 dm0 rfl⟩

/-- Claim C5: fan-out over a snapshot offers the payload to every handle of
the snapshot, in snapshot order; a handle survives the pass in the registry
exactly when it was registered before the pass and did not fail its delivery,
so a delivery failure removes only the failing handle, does not abort delivery
to the remaining handles, and does not fail the pass as a whole. -/
theorem C5_delivery_failure_isolated (snapshot : List Nat) (delivers : Nat → Bool)
    (registry : List Nat) :
    (deliverAll snapshot delivers registry).2 = snapshot ∧
    ∀ h : Nat, h ∈ (deliverAll snapshot delivers registry).1 ↔
      h ∈ registry ∧ (h ∈ snapshot → delivers h = true) := by
  induction snapshot generalizing registry with
  | nil => simp [deliverAll]
  | cons g rest ih =>
    have ih2 := ih (if delivers g then registry else registry.filter (fun x => x ≠ g))
    constructor
    · rw [deliverAll_cons]
      simpa using ih2.1
    · intro h
      rw [deliverAll_cons]
      dsimp only
      rw [ih2.2 h]
      by_cases hd : delivers g = true <;> by_cases hg : h = g
      · subst hg
        simp [hd]
      · simp [hd, hg, List.mem_cons]
      · subst hg
        simp [hd, List.mem_filter]
      · simp [hd, hg, List.mem_filter, List.mem_cons]

/-- Witness for claim C5: three registered handles, delivery to handle 2
fails; all three handles of the snapshot are offered the payload and handle 3
is still registered afterwards. -/
theorem C5_delivery_failure_isolated_witness :
    (deliverAll [1, 2, 3] (fun h => h != 2) [1, 2, 3]).2 = [1, 2, 3] ∧
    (3 ∈ (deliverAll [1, 2, 3] (fun h => h != 2) [1, 2, 3]).1 ↔
      3 ∈ [1, 2, 3] ∧ (3 ∈ [1, 2, 3] → ((3 : Nat) != 2) = true)) :=
  ⟨(C5_delivery_failure_isolated [1, 2, 3] (fun h => h != 2) [1, 2, 3]).1,
   (C5_delivery_failure_isolated [1, 2, 3] (fun h => h != 2) [1, 2, 3]).2 3⟩

/-- Claim C6: along any serialized trace of loop passes over the shared
database, ids are assigned from the server-side counter at persistence time,
strictly increase in persistence-call order, and no two stored rows share an
id. -/
theorem C6_ids_strictly_increasing
    (inputs : List (List (String × Json) × Bool × DateTime)) :
    List.Pairwise (fun a b : Message => a.id < b.id)
      (runSteps initialStore inputs).messages ∧
    List.Pairwise (fun a b : Message => a.id ≠ b.id)
      (runSteps initialStore inputs).messages := by
  have h := (WF_runSteps inputs initialStore WF_initialStore).2
  exact ⟨h, h.imp Nat.ne_of_lt⟩

/-- Witness for claim C6 on a concrete two-payload trace. -/
theorem C6_ids_strictly_increasing_witness :
    List.Pairwise (fun a b : Message => a.id < b.id)
      (runSteps initialStore
        [([("content", Json.str "one")], true, t0),
         ([("content", Json.str "two")], true, t0)]).messages ∧
    List.Pairwise (fun a b : Message => a.id ≠ b.id)
      (runSteps initialStore
        [([("content", Json.str "one")], true, t0),
         ([("content", Json.str "two")], true, t0)]).messages :=
  C6_ids_strictly_increasing
    [([("content", Json.str "one")], true, t0),
     ([("content", Json.str "two")], true, t0)]

/-- Claim C7: the history read endpoint leaves the store unchanged and returns
every persisted message — a permutation of the stored rows — ordered by
`created_at` ascending and serialized through `Message.to_dict`, the same
serializer the broadcast path uses. -/
theorem C7_history_endpoint (st : Store) :
    (get_messages st).1 = st ∧
    ∃ sorted : List Message,
      sorted.Perm st.messages ∧
      List.Pairwise (fun a b : Message => a.created_at.leb b.created_at = true) sorted ∧
      (get_messages st).2 = sorted.map Message.to_dict := by
  refine ⟨rfl, st.messages.mergeSort (fun a b => a.created_at.leb b.created_at),
    List.mergeSort_perm st.messages _, ?_, rfl⟩
  exact List.sorted_mergeSort
    (fun a b c hab hbc => by
      simp only [DateTime.leb, decide_eq_true_eq] at hab hbc ⊢
      omega)
    (fun a b => by
      simp only [DateTime.leb, Bool.or_eq_true, decide_eq_true_eq]
      omega)
    st.messages

/-- Witness for claim C7 at the fresh store. -/
theorem C7_history_endpoint_witness :
    (get_messages initialStore).1 = initialStore ∧
    ∃ sorted : List Message,
      sorted.Perm initialStore.messages ∧
      List.Pairwise (fun a b : Message => a.created_at.leb b.created_at = true) sorted ∧
      (get_messages initialStore).2 = sorted.map Message.to_dict :=
  C7_history_endpoint initialStore

/-- Claim C8: every payload handed to `manager.broadcast` is a JSON object
with exactly the four keys id, username, content and created_at, in this
order; id holds a number while username, content and created_at hold strings,
created_at being the `isoformat` rendering of the row's timestamp. -/
theorem C8_broadcast_payload_shape (st : Store) (data : List (String × Json))
    (ok : Bool) (now : DateTime) (p : List (String × Json))
    (hb : (loopStep st data ok now).2 = LoopResult.broadcasted p) :
    p.map Prod.fst = ["id", "username", "content", "created_at"] ∧
    (∃ n : Nat, lookupField p "id" = some (Json.num n)) ∧
    (∃ s : String, lookupField p "username" = some (Json.str s)) ∧
    (∃ s : String, lookupField p "content" = some (Json.str s)) ∧
    ∃ d : DateTime, lookupField p "created_at" = some (Json.str d.isoformat) := by
  obtain ⟨us, cs, hu, hc, hlen, hok, heq⟩ := loopStep_broadcasted_inv st data ok now p hb
  have hp : p = Message.to_dict
      { id := st.nextId, username := us, content := cs, created_at := now } := by
    have h2 : LoopResult.broadcasted (Message.to_dict
        { id := st.nextId, username := us, content := cs, created_at := now }) =
        LoopResult.broadcasted p := by
      rw [← hb, heq]
    injection h2 with h3
    exact h3.symm
  subst hp
  exact ⟨rfl, ⟨st.nextId, rfl⟩, ⟨us, rfl⟩, ⟨cs, rfl⟩, ⟨now, rfl⟩⟩

/-- Witness for claim C8 at a concrete broadcast payload. -/
theorem C8_broadcast_payload_shape_witness :
    (loopStep initialStore [("content", Json.str "hi")] true t0).2 =
      LoopResult.broadcasted dm0 ∧
    (dm0.map Prod.fst = ["id", "username", "content", "created_at"] ∧
     (∃ n : Nat, lookupField dm0 "id" = some (Json.num n)) ∧
     (∃ s : String, lookupField dm0 "username" = some (Json.str s)) ∧
     (∃ s : String, lookupField dm0 "content" = some (Json.str s)) ∧
     ∃ d : DateTime, lookupField dm0 "created_at" = some (Json.str d.isoformat)) :=
  ⟨rfl,
    C8_broadcast_payload_shape initialStore [("content", Json.str "hi")] true t0 dm0 rfl⟩

/-- Claim C9: at the WebSocket interface a payload is dropped by validation
exactly when its content value — after the `data.get` default `""` for a
missing key — is falsy in Python's sense (missing key, `""`, null, 0, false,
empty array or object); a truthy non-string content such as the number 5
passes the check and is carried into the persistence attempt, where the
storage layer rejects the non-string bind. -/
theorem C9_drop_iff_content_falsy (st : Store) (data : List (String × Json))
    (ok : Bool) (now : DateTime) :
    ((loopStep st data ok now).2 = LoopResult.skipped ↔
      (getField data "content" (Json.str "")).falsy = true) ∧
    validate [("content", Json.num 5)] =
      Validated.accept (Json.str "Anonymous") (Json.num 5) ∧
    (loopStep st [("content", Json.num 5)] ok now).2 = LoopResult.raised :=
  ⟨loopStep_skipped_iff st data ok now, rfl, rfl⟩

/-- Witness for claim C9 at the concrete payload with null content. -/
theorem C9_drop_iff_content_falsy_witness :
    ((loopStep initialStore [("content", Json.null)] true t0).2 = LoopResult.skipped ↔
      (getField [("content", Json.null)] "content" (Json.str "")).falsy = true) ∧
    validate [("content", Json.num 5)] =
      Validated.accept (Json.str "Anonymous") (Json.num 5) ∧
    (loopStep initialStore [("content", Json.num 5)] true t0).2 = LoopResult.raised :=
  C9_drop_iff_content_falsy initialStore [("content", Json.null)] true t0

/-- Claim C10: the username column is declared varchar(100)
(`usernameMaxLength = 100`), a bound the data model nowhere else surfaces; a
validated payload whose username exceeds 100 characters is rejected by the
storage layer at commit, leaving the store unchanged and raising in the loop
body. -/
theorem C10_username_length_limit (st : Store) (data : List (String × Json))
    (ok : Bool) (now : DateTime) (us cs : String)
    (hv : validate data = Validated.accept (Json.str us) (Json.str cs))
    (hl : usernameMaxLength < us.length) :
    usernameMaxLength = 100 ∧ loopStep st data ok now = (st, LoopResult.raised) := by
  refine ⟨rfl, ?_⟩
  have hcr : commitResult (Json.str us) (Json.str cs) ok = none := by
    have hn : ¬(us.length ≤ usernameMaxLength ∧ ok = true) := by
      rintro ⟨h1, _⟩
      omega
    simp only [commitResult, if_neg hn]
  simp [loopStep, hv, hcr]

/-- Witness for claim C10 at a concrete 101-character username. -/
theorem C10_username_length_limit_witness :
    validate [("username", Json.str longName), ("content", Json.str "hi")] =
      Validated.accept (Json.str longName) (Json.str "hi") ∧
    usernameMaxLength < longName.length ∧
    (usernameMaxLength = 100 ∧
      loopStep initialStore
        [("username", Json.str longName), ("content", Json.str "hi")] true t0 =
        (initialStore, LoopResult.raised)) :=
  ⟨rfl, by decide,
    C10_username_length_limit initialStore
      [("username", Json.str longName), ("content", Json.str "hi")] true t0
      longName "hi" rfl (by decide)⟩

end SiteForge
